import Mathlib

/-!
Verification of the real-time call-stream voice-agent core against its design
document.

The development shallowly embeds the Python sources:

* `src/tts.py`   — mu-law encoding (`ElevenLabsTTS._pcm_to_mulaw`) and the
  paced output streamer (`TwilioAudioStreamer.stream_to_twilio`);
* `src/stt.py`   — mu-law decoding (`StreamingSTT._mulaw_to_pcm`), the RMS
  silence classifier (`StreamingSTT._is_silent`), and the per-stream
  voice-activity segmenter (`StreamingSTT.process_audio_chunk`);
* `src/llm.py`   — the collections agent with bounded conversation history
  (`CollectionsAgent.generate_response`);
* `src/handlers.py` — the WebSocket event handlers (`handle_media`,
  `handle_mark`, `stream_tts_response`).

Numpy float32/float64 arithmetic is idealized as exact real (or, where the
formulas are log-free, rational) arithmetic; network collaborators (STT
transcription, LLM completion, TTS synthesis) are injected as function
parameters, matching the call sites in the source.  Mutable Python objects
become explicit state records; a raised exception is reported alongside the
state the object holds at the moment of the raise.
-/

/-! ### Audio codec: src/tts.py `_pcm_to_mulaw`, src/stt.py `_mulaw_to_pcm` -/

/-- Mu-law encoding of one 16-bit PCM sample, translated from
`ElevenLabsTTS._pcm_to_mulaw` (src/tts.py lines 87-106), specialized to a
single sample of the vectorized numpy pipeline:
`pcm_float = pcm.astype(float32) / 32768.0`; `sign = np.sign(pcm_float)`;
`compressed = log(1 + mu*|pcm_float|) / log(1 + mu)` with `mu = 255.0`;
`mulaw = sign * compressed * 127.0 + 128.0`; `np.clip(mulaw, 0, 255)`;
`astype(np.uint8)` truncates toward zero, which on the clipped nonnegative
value is the floor.  Float arithmetic is idealized as real arithmetic. -/
noncomputable def pcm_to_mulaw_sample (x : ℤ) : ℕ :=
  (⌊min 255 (max 0
      ((if 0 < (x : ℝ) / 32768 then (1 : ℝ) else if (x : ℝ) / 32768 < 0 then -1 else 0)
        * (Real.log (1 + 255 * |(x : ℝ) / 32768|) / Real.log (1 + 255)) * 127 + 128))⌋).toNat

/-- Vectorized form of `_pcm_to_mulaw`: numpy maps the formula over the block. -/
noncomputable def pcm_to_mulaw (pcm : List ℤ) : List ℕ :=
  pcm.map pcm_to_mulaw_sample

/-- Truncation toward zero of a rational, the rounding used by numpy `astype`
for values that fit the target integer type. -/
def truncTowardZero (q : ℚ) : ℤ :=
  if q < 0 then -⌊-q⌋ else ⌊q⌋

/-- Reduction of a truncated value into the int16 range, the final step of
numpy `astype(np.int16)`: for values already in [-32768, 32767] the cast is
the identity, and the result is always a bounded int16.  For out-of-range
doubles the C-level conversion is undefined (platform-dependent) but still
produces some int16; two's-complement wraparound stands in for it here, and
no theorem below depends on an out-of-range case. -/
def int16_cast (n : ℤ) : ℤ :=
  (n + 32768) % 65536 - 32768

/-- Mu-law decoding of one byte, translated from `StreamingSTT._mulaw_to_pcm`
(src/stt.py lines 87-105), specialized to a single sample.  `mulaw_array` has
dtype uint8, so numpy evaluates `mulaw_array - 128` in uint8 with modular
wraparound: the sample becomes `d = (u + 128) % 256`.  On that uint8 value
`np.sign` yields 0 or 1 (never -1) and `np.abs` is the identity, so
`linear = sign(d) * (1.0/mu) * ((1.0+mu) ** d - 1.0)` with `mu = 255.0`, then
`linear = linear * 32767` and `astype(np.int16)` — truncation toward zero
followed by reduction into the int16 range.  The float64 pipeline is
idealized as exact rational arithmetic (at the byte the theorems below use,
d = 1, the float computation is in fact exact). -/
def mulaw_to_pcm_sample (u : ℕ) : ℤ :=
  int16_cast (truncTowardZero
    ((if (u + 128) % 256 = 0 then (0 : ℚ) else 1)
      * (1 / 255) * ((256 : ℚ) ^ ((u + 128) % 256) - 1) * 32767))

/-- Vectorized form of `_mulaw_to_pcm`: numpy maps the formula over the block. -/
def mulaw_to_pcm (mulaw : List ℕ) : List ℤ :=
  mulaw.map mulaw_to_pcm_sample

/-! ### Loudness / silence classifier: src/stt.py `_is_silent` -/

/-- RMS amplitude of a block of 16-bit samples as computed by
`pydub.AudioSegment.rms` (stdlib `audioop.rms`): the truncated square root of
the mean of the squared samples, and 0 for the empty block. -/
def pydub_rms (samples : List ℤ) : ℕ :=
  if samples.length = 0 then 0
  else Nat.sqrt ((samples.map fun s => (s * s).toNat).sum / samples.length)

/-- Silence classifier, translated from `StreamingSTT._is_silent` (src/stt.py
lines 107-118): silence when `rms == 0`, otherwise silence exactly when
`20 * log10(rms / 32767.0)` is strictly below the configured threshold (dB). -/
def is_silent (threshold_db : ℝ) (samples : List ℤ) : Prop :=
  if pydub_rms samples = 0 then True
  else 20 * Real.log ((pydub_rms samples : ℝ) / 32767) / Real.log 10 < threshold_db

/-- One period of a full-scale (amplitude 32767) sine wave sampled at four
points per period (phases 0, pi/2, pi, 3*pi/2). -/
def fullScaleSineBlock : List ℤ :=
  [0, 32767, 0, -32767]

/-! ### Voice-activity segmenter: src/stt.py `StreamingSTT.process_audio_chunk` -/

/-- Per-stream segmenter state, translated from `StreamState` (src/stt.py
lines 16-21): the raw (wire-format mu-law) audio accumulated since the last
utterance boundary, and the time of the last speech-classified chunk
(`None` when absent). -/
structure StreamSegState where
  audioBuffer : List ℕ
  lastSpeechTime : Option ℚ
deriving DecidableEq

/-- Result of one `process_audio_chunk` call.  Python mutates the
`StreamState` object in place and may raise; `st` is the state the object
holds when the call returns or raises, `transcription` the returned value
(`none` both for "still collecting" and for an empty transcript), and `err`
is `some ()` when the call raises `AudioProcessingError` (the `except` clause
at src/stt.py lines 81-85 wraps every failure, including the `STTError` of
`_transcribe_audio`, in `AudioProcessingError`). -/
structure ChunkResult where
  st : StreamSegState
  transcription : Option String
  err : Option Unit
deriving DecidableEq

/-- One segmenter step, translated from `StreamingSTT.process_audio_chunk`
(src/stt.py lines 46-85).  The composite
`self._is_silent(self._mulaw_to_pcm(audio_data))` — a decode that may raise,
followed by the loudness test — is injected as `classify` (`Except.error`
models a decode failure raising before any state is touched); the network
transcription call `self._transcribe_audio(...)` is injected as `transcribe`
(`Except.error` models `STTError`).  `silence_threshold_ms` is the configured
threshold in milliseconds and `now` the current `time.time()` in seconds, so
the utterance-complete test is
`now - last_speech_time >= silence_threshold_ms / 1000`.  On speech: record
`last_speech_time = now` and append the raw chunk to the buffer.  On silence:
when a speech time is recorded, the timeout has elapsed and the buffer is
nonempty, transcribe the buffer and only then reset buffer and timestamp; a
transcription failure raises with the buffer and timestamp untouched. -/
def process_audio_chunk (classify : List ℕ → Except Unit Bool)
    (transcribe : List ℕ → Except Unit (Option String))
    (silence_threshold_ms : ℚ) (now : ℚ)
    (st : StreamSegState) (audio_data : List ℕ) : ChunkResult :=
  match classify audio_data with
  | .error _ => ⟨st, none, some ()⟩
  | .ok true =>
    match st.lastSpeechTime with
    | some lastT =>
      if silence_threshold_ms / 1000 ≤ now - lastT then
        if st.audioBuffer.length > 0 then
          match transcribe st.audioBuffer with
          | .error _ => ⟨st, none, some ()⟩
          | .ok t => ⟨⟨[], none⟩, t, none⟩
        else ⟨st, none, none⟩
      else ⟨st, none, none⟩
    | none => ⟨st, none, none⟩
  | .ok false => ⟨⟨st.audioBuffer ++ audio_data, some now⟩, none, none⟩

/-- Drive the segmenter over a timed chunk sequence, one
`process_audio_chunk` call per chunk, collecting each call's outcome.  An
erroring chunk leaves the state as the call left it and processing continues,
mirroring the dispatcher loop, which catches the per-chunk
`AudioProcessingError` (src/handlers.py lines 112-115) and keeps reading. -/
def run_chunks (classify : List ℕ → Except Unit Bool)
    (transcribe : List ℕ → Except Unit (Option String))
    (silence_threshold_ms : ℚ) (st : StreamSegState) :
    List (ℚ × List ℕ) → StreamSegState × List (Option String × Option Unit)
  | [] => (st, [])
  | (now, chunk) :: rest =>
    let r := process_audio_chunk classify transcribe silence_threshold_ms now st chunk
    let tail := run_chunks classify transcribe silence_threshold_ms r.st rest
    (tail.1, (r.transcription, r.err) :: tail.2)

/-- Classifier used for the C6 scenario: the byte 9 marks a silence chunk,
everything else is speech; decoding never fails. -/
def classifyC6 : List ℕ → Except Unit Bool :=
  fun c => .ok (decide (c = [9]))

/-- Timed chunk sequence for the C6 scenario: five speech chunks spanning
2000 ms (at 0, 500, 1000, 1500, 2000 ms), then three silence chunks spanning
the following 1500 ms (at 2500, 3000, 3500 ms).  Times are seconds, as
produced by `time.time()`. -/
def chunksC6 : List (ℚ × List ℕ) :=
  [(0, [1]), (1/2, [2]), (1, [3]), (3/2, [4]), (2, [5]),
   (5/2, [9]), (3, [9]), (7/2, [9])]

/-! ### Collections agent: src/llm.py `CollectionsAgent.generate_response` -/

/-- Chat roles of the OpenAI-style message list. -/
inductive Role where
  | system
  | user
  | assistant
deriving DecidableEq

/-- One message of the conversation history. -/
structure ChatMsg where
  role : Role
  content : String
deriving DecidableEq

/-- System prompt, from `COLLECTIONS_AGENT_PROMPT` in src/config.py. -/
def COLLECTIONS_AGENT_PROMPT : String :=
  "You are a professional collections agent for a financial services company. Your role is to help customers resolve outstanding payments in a respectful, empathetic, and compliant manner.\n\nKey guidelines:\n- Always be polite and professional\n- Listen actively to customer concerns\n- Offer flexible payment arrangements when appropriate\n- Never threaten legal action or collection agencies\n- Never discuss account details without verification\n- Keep responses concise and conversational\n- End conversations positively when possible\n\nYou must comply with FDCPA and state collection laws:\n- No calls before 8 AM or after 9 PM local time\n- No harassment or abusive language\n- No false representations about amount owed\n- No threats of violence or arrest\n- No communication with third parties about debt\n\nRespond naturally as if speaking on a phone call."

/-- History cap, from `self._max_history_messages = 10` in src/llm.py line 22. -/
def max_history_messages : ℕ := 10

/-- History update of a successful turn, from src/llm.py lines 64-70: append
the (user, assistant) pair, then when the cap is exceeded drop
`excess = len(history) - max_history_messages` messages from the oldest end
(`history = history[excess:]`). -/
def update_history (history : List ChatMsg) (user_message ai_response : String) :
    List ChatMsg :=
  let h1 := history ++ [⟨.user, user_message⟩, ⟨.assistant, ai_response⟩]
  if max_history_messages < h1.length then h1.drop (h1.length - max_history_messages)
  else h1

/-- One turn of the agent, translated from `CollectionsAgent.generate_response`
(src/llm.py lines 28-88).  The chat-completion network call is injected as
`complete`; its `Except.error` models a request failure and `Except.ok none`
a response with null content.  The source raises `LLMError` when the request
fails or when the content is falsy (`if not content`), modeled as
`Except.error ()`; exceptions are raised before the history is touched, so on
error the caller's history is unchanged.  On success the content is stripped,
the (user, assistant) pair appended, and the history trimmed to the cap. -/
def generate_response (complete : List ChatMsg → Except Unit (Option String))
    (history : List ChatMsg) (user_message : String) :
    Except Unit (List ChatMsg × String) :=
  match complete (⟨.system, COLLECTIONS_AGENT_PROMPT⟩ :: history ++ [⟨.user, user_message⟩]) with
  | .error _ => .error ()
  | .ok none => .error ()
  | .ok (some content) =>
    if content = "" then .error ()
    else .ok (update_history history user_message content.trim, content.trim)

/-- Histories reachable by the agent: the empty history (a fresh
`CollectionsAgent`, or one reset by `reset_history`) and every history
produced from a reachable one by a successful `generate_response` turn. -/
inductive HistReachable : List ChatMsg → Prop
  | init : HistReachable []
  | turn {complete : List ChatMsg → Except Unit (Option String)}
      {h h' : List ChatMsg} {u r : String} :
      HistReachable h → generate_response complete h u = .ok (h', r) →
      HistReachable h'

/-- A history made of complete (user, assistant) pairs, oldest first. -/
inductive PairShaped : List ChatMsg → Prop
  | nil : PairShaped []
  | pair (u a : String) {t : List ChatMsg} :
      PairShaped t → PairShaped (⟨.user, u⟩ :: ⟨.assistant, a⟩ :: t)

/-! ### Outbound frames and the output streamer: src/tts.py
`TwilioAudioStreamer.stream_to_twilio`, src/handlers.py
`stream_tts_response` -/

/-- Outbound WebSocket frames written by the streaming side (src/tts.py lines
126-142 and the clear frame of src/handlers.py lines 50-54). -/
inductive Frame where
  | clear (streamSid : String)
  | media (streamSid : String) (payload : String)
  | mark (streamSid : String) (name : String)
deriving DecidableEq

/-- Standard base64 alphabet. -/
def base64Chars : List Char :=
  "ABCDEFGHIJKLMNOPQRSTUVWXYZabcdefghijklmnopqrstuvwxyz0123456789+/".toList

/-- Character of the base64 alphabet at a 6-bit index. -/
def base64Char (i : ℕ) : Char :=
  base64Chars.getD i 'A'

/-- Standard base64 of a byte list, the `base64.b64encode(...).decode('utf-8')`
of src/tts.py line 123. -/
def b64encode : List ℕ → String
  | [] => ""
  | [b1] =>
    String.mk [base64Char (b1 / 4), base64Char (b1 % 4 * 16), '=', '=']
  | [b1, b2] =>
    String.mk [base64Char (b1 / 4), base64Char (b1 % 4 * 16 + b2 / 16),
               base64Char (b2 % 16 * 4), '=']
  | b1 :: b2 :: b3 :: rest =>
    String.mk [base64Char (b1 / 4), base64Char (b1 % 4 * 16 + b2 / 16),
               base64Char (b2 % 16 * 4 + b3 / 64), base64Char (b3 % 64)]
      ++ b64encode rest

/-- What the TTS generator `generate_speech_stream` produced before the
streamer finished consuming it: the mu-law chunks yielded, and whether the
generator ran to completion (`completed = false` models a `TTSError` or other
exception raised mid-stream, caught by the `except` clause of
`stream_to_twilio` at src/tts.py lines 145-148 after the listed chunks were
already sent). -/
structure TTSStreamResult where
  chunks : List (List ℕ)
  completed : Bool
deriving DecidableEq

/-- Frames written by `TwilioAudioStreamer.stream_to_twilio` (src/tts.py lines
114-148): each yielded chunk is split into `chunk_size` slices
(`audio_chunk[i:i+chunk_size]`), empty slices are skipped (`if chunk:`), each
slice is base64-encoded and sent as one media frame; after the generator is
exhausted one mark frame carrying `mark_id` is sent.  When the generator
raises mid-stream the `except` clause stops the loop, so the frames of the
chunks already consumed are on the wire and no trailing mark frame is sent. -/
def stream_to_twilio_frames (chunk_size : ℕ) (stream_sid mark_id : String)
    (tts : TTSStreamResult) : List Frame :=
  let mediaFrames :=
    (tts.chunks.map fun audio_chunk =>
      ((List.toChunks chunk_size audio_chunk).filter fun c => !c.isEmpty).map
        fun c => Frame.media stream_sid (b64encode c)).flatten
  if tts.completed then mediaFrames ++ [Frame.mark stream_sid mark_id] else mediaFrames

/-- The TTS background task, translated from `stream_tts_response`
(src/handlers.py lines 141-175): add `mark_id` to the session's pending set,
then stream the synthesized audio via `stream_to_twilio`.  Returns the new
pending set and the frames written.  `TTSError`/`AudioProcessingError` and
any other exception are caught and logged (lines 166-175), so the task never
removes the mark it added. -/
def stream_tts_response (chunk_size : ℕ) (stream_sid mark_id : String)
    (pending_marks : Finset String) (tts : TTSStreamResult) :
    Finset String × List Frame :=
  (insert mark_id pending_marks, stream_to_twilio_frames chunk_size stream_sid mark_id tts)

/-! ### Mark acknowledgement handler: src/handlers.py `handle_mark` -/

/-- Name extraction of `handle_mark` (src/handlers.py lines 129-130):
`mark_obj = data.get(MARK_KEY) or {}` then
`mark_name = mark_obj.get(MARK_NAME_KEY) or data.get(MARK_NAME_KEY)`.
`markField` is the nested `data["mark"]["name"]` (absent or falsy collapses
to `none`/empty) and `topField` the legacy top-level `data["name"]`. -/
def mark_name_of (markField topField : Option String) : Option String :=
  match markField with
  | some s => if s = "" then topField else some s
  | none => topField

/-- Mark acknowledgement, translated from `handle_mark` (src/handlers.py lines
127-138): when the extracted name is truthy and currently pending, discard it;
otherwise the pending set is untouched and no error is raised. -/
def handle_mark (pending_marks : Finset String) (markField topField : Option String) :
    Finset String :=
  match mark_name_of markField topField with
  | none => pending_marks
  | some n =>
    if n ≠ "" ∧ n ∈ pending_marks then pending_marks.erase n else pending_marks

/-! ### Media handler / dispatcher: src/handlers.py `handle_media` -/

/-- Fallback text from src/handlers.py lines 26-28, used when the LLM turn
raises `LLMError`. -/
def LLM_FALLBACK_MESSAGE : String :=
  "I\x27m sorry, I\x27m having trouble processing your request. Can you please try again?"

/-- Names bound in the module namespace of src/handlers.py by its import of
core.constants (lines 9-18).  `EVENT_KEY` is not among them, although the
barge-in branch of `handle_media` (line 51) references it. -/
def handlers_constant_imports : List String :=
  ["STREAM_SID_KEY", "MEDIA_KEY", "PAYLOAD_KEY", "MARK_KEY", "MARK_NAME_KEY",
   "ACCOUNT_SID_KEY", "SEQUENCE_NUMBER_KEY", "TwilioEvent"]

/-- Whether a global name used inside src/handlers.py resolves; a name that
does not resolve raises `NameError` at the point of use. -/
def handlers_resolves (n : String) : Bool :=
  handlers_constant_imports.contains n

/-- Python exceptions that can escape `handle_media` (its `try` block catches
everything reaching it, so only code outside the `try` — the barge-in branch —
can let an exception propagate to the dispatcher loop). -/
inductive PyErr where
  | nameError
deriving DecidableEq

/-- Per-call session state, translated from `CallState` (src/state.py lines
12-23) restricted to the fields `handle_media` touches.  `ttsTaskRunning`
models `current_tts_task is not None and not current_tts_task.done()`;
`stt` is the `StreamState` of this call's `stt_processor`; `history` the
`_history` of this call's `llm_agent`. -/
structure CallSt where
  stream_sid : String
  ttsTaskRunning : Bool
  mark_id : ℕ
  pending_marks : Finset String
  stt : StreamSegState
  history : List ChatMsg
deriving DecidableEq

/-- Observable outcome of one `handle_media` call: the session state when the
call returns (or raises), the frames the handler itself wrote synchronously,
the TTS task it spawned via `asyncio.create_task` (text and mark id — the
task body runs later, see `stream_tts_response`), the chunk it fed to the
segmenter (`process_audio_chunk`), and the exception, if any, that escaped
to the dispatcher loop. -/
structure MediaOutcome where
  state : CallSt
  sentFrames : List Frame
  spawned : Option (String × String)
  fedChunk : Option (List ℕ)
  raised : Option PyErr
deriving DecidableEq

/-- Body of `handle_media` from the `try` at src/handlers.py line 67 onward:
extract the (base64-decoded) payload, feed the chunk to the segmenter, and on
a completed non-empty transcription run the LLM turn, falling back to
`LLM_FALLBACK_MESSAGE` on `LLMError`; a non-empty reply increments `mark_id`
and spawns the TTS task.  `AudioProcessingError`/`STTError` from the
segmenter and every other exception inside the `try` are caught and logged
(lines 112-119), so the body never lets an exception escape. -/
def handle_media_body
    (sttP : StreamSegState → List ℕ → ChunkResult)
    (complete : List ChatMsg → Except Unit (Option String))
    (st : CallSt) (frames : List Frame) (audio_payload : Option (List ℕ)) :
    MediaOutcome :=
  match audio_payload with
  | none => ⟨st, frames, none, none, none⟩
  | some audio_data =>
    let r := sttP st.stt audio_data
    let st1 := { st with stt := r.st }
    match r.err with
    | some _ => ⟨st1, frames, none, some audio_data, none⟩
    | none =>
      match r.transcription with
      | none => ⟨st1, frames, none, some audio_data, none⟩
      | some transcription =>
        if transcription = "" then ⟨st1, frames, none, some audio_data, none⟩
        else
          match generate_response complete st1.history transcription with
          | .ok (h2, llm_response) =>
            let st2 := { st1 with history := h2 }
            if llm_response = "" then ⟨st2, frames, none, some audio_data, none⟩
            else
              ⟨{ st2 with mark_id := st2.mark_id + 1, ttsTaskRunning := true }, frames,
                some (llm_response, "mark_" ++ toString (st2.mark_id + 1)),
                some audio_data, none⟩
          | .error _ =>
            ⟨{ st1 with mark_id := st1.mark_id + 1, ttsTaskRunning := true }, frames,
              some (LLM_FALLBACK_MESSAGE, "mark_" ++ toString (st1.mark_id + 1)),
              some audio_data, none⟩

/-- Inbound media handler, translated from `handle_media` (src/handlers.py
lines 40-119).  When a TTS task is running the barge-in branch (lines 48-64)
builds the clear frame `{EVENT_KEY: TwilioEvent.CLEAR, ...}` — which resolves
the module global `EVENT_KEY` — sends it, cancels the running task and awaits
its cancellation before falling through to the body.  Because `EVENT_KEY` is
not imported in src/handlers.py, that name lookup raises `NameError` before
the frame is built; the raise is outside the `try` block, so it escapes with
the session state untouched. -/
def handle_media
    (sttP : StreamSegState → List ℕ → ChunkResult)
    (complete : List ChatMsg → Except Unit (Option String))
    (st : CallSt) (audio_payload : Option (List ℕ)) : MediaOutcome :=
  if st.ttsTaskRunning then
    if handlers_resolves "EVENT_KEY" then
      handle_media_body sttP complete { st with ttsTaskRunning := false }
        [Frame.clear st.stream_sid] audio_payload
    else ⟨st, [], none, none, some .nameError⟩
  else handle_media_body sttP complete st [] audio_payload

/-- Concrete session used in counterexamples: barge-in context with a running
TTS task and one outstanding mark. -/
def bargeSt : CallSt :=
  ⟨"MZ0001", true, 1, {"mark_1"}, ⟨[], none⟩, []⟩

/-- Concrete idle session whose segmenter holds buffered speech with the
silence timeout about to elapse. -/
def idleSt : CallSt :=
  ⟨"MZ0001", false, 0, ∅, ⟨[3], some 0⟩, []⟩

/-! ### Theorems: audio codec (C4) -/

theorem pydub_rms_sine : pydub_rms fullScaleSineBlock = 23169 := by
  have hsum : ((fullScaleSineBlock.map fun s => (s * s).toNat).sum /
      fullScaleSineBlock.length) = 536838144 := by decide
  have hlen : fullScaleSineBlock.length = 4 := by decide
  unfold pydub_rms
  rw [if_neg (by simp [hlen]), hsum]
  exact (Nat.eq_sqrt.mpr (by constructor <;> norm_num)).symm

set_option maxRecDepth 8000 in
theorem pcm_to_mulaw_six : pcm_to_mulaw_sample 6 = 129 := by
  unfold pcm_to_mulaw_sample
  have hf : ((6 : ℤ) : ℝ) / 32768 = 3 / 16384 := by norm_num
  rw [hf]
  rw [if_pos (by norm_num : (0 : ℝ) < 3 / 16384)]
  have habs : |(3 / 16384 : ℝ)| = 3 / 16384 := abs_of_pos (by norm_num)
  have harg : (1 : ℝ) + 255 * (3 / 16384) = 17149 / 16384 := by norm_num
  have h256 : (1 + 255 : ℝ) = 256 := by norm_num
  rw [habs, harg, h256]
  have hlog256 : 0 < Real.log 256 := Real.log_pos (by norm_num)
  have hr1 : (256 : ℝ) ≤ ((17149 : ℝ) / 16384) ^ (127 : ℕ) := by
    rw [div_pow, le_div_iff₀ (by positivity)]
    have hnat : (256 : ℕ) * 16384 ^ 127 ≤ 17149 ^ 127 := by decide
    exact_mod_cast hnat
  have hr2 : ((17149 : ℝ) / 16384) ^ (127 : ℕ) < (65536 : ℝ) := by
    rw [div_pow, div_lt_iff₀ (by positivity)]
    have hnat : (17149 : ℕ) ^ 127 < 65536 * 16384 ^ 127 := by decide
    exact_mod_cast hnat
  have hclo : (1 : ℝ) / 127 ≤ Real.log (17149 / 16384) / Real.log 256 := by
    rw [div_le_div_iff₀ (by norm_num) hlog256]
    have h1 : Real.log 256 ≤ Real.log (((17149 : ℝ) / 16384) ^ (127 : ℕ)) :=
      Real.log_le_log (by norm_num) hr1
    rw [Real.log_pow] at h1
    push_cast at h1
    linarith
  have hchi : Real.log (17149 / 16384) / Real.log 256 < 2 / 127 := by
    rw [div_lt_div_iff₀ hlog256 (by norm_num)]
    have h2 : Real.log (((17149 : ℝ) / 16384) ^ (127 : ℕ)) < Real.log 65536 :=
      Real.log_lt_log (by positivity) hr2
    rw [Real.log_pow] at h2
    have h65536 : Real.log (65536 : ℝ) = 2 * Real.log 256 := by
      rw [show (65536 : ℝ) = 256 ^ (2 : ℕ) by norm_num, Real.log_pow]
      push_cast
      ring
    rw [h65536] at h2
    push_cast at h2
    linarith
  have hv1 : (129 : ℝ) ≤ 1 * (Real.log (17149 / 16384) / Real.log 256) * 127 + 128 := by
    linarith
  have hv2 : 1 * (Real.log (17149 / 16384) / Real.log 256) * 127 + 128 < 130 := by
    linarith
  rw [max_eq_right (by linarith), min_eq_right (by linarith)]
  have hfloor : ⌊(1 * (Real.log (17149 / 16384) / Real.log 256) * 127 + 128 : ℝ)⌋
      = 129 := by
    rw [Int.floor_eq_iff]
    constructor
    · push_cast
      linarith
    · push_cast
      linarith
  rw [hfloor]
  rfl

theorem mulaw_to_pcm_129 : mulaw_to_pcm_sample 129 = 32767 := by
  have hq : ((if ((129 : ℕ) + 128) % 256 = 0 then (0 : ℚ) else 1)
      * (1 / 255) * ((256 : ℚ) ^ (((129 : ℕ) + 128) % 256) - 1) * 32767)
      = 32767 := by norm_num
  unfold mulaw_to_pcm_sample
  rw [hq]
  unfold truncTowardZero int16_cast
  rw [if_neg (by norm_num : ¬((32767 : ℚ) < 0))]
  norm_num

/-- C4: the claim asserts that for every block of 16-bit PCM samples, decoding
the mu-law encoding returns samples within bounded mu-law quantization error
(about one quantization step per sample) of the originals.  The code refutes
this: encoding the quiet sample 6 yields the mu-law byte 129 (compressed
value about 0.0082, so `sign*compressed*127 + 128` is about 129.05, clipped
and truncated to 129), and the decoder of src/stt.py — whose exponent
`|u - 128|` is never normalized to [0, 1] and whose uint8 subtraction
`u - 128` wraps modulo 256, destroying the sign — maps byte 129 (d = 1) to
`(1/255)*(256^1 - 1)*32767 = 32767` exactly, with no float overflow and an
in-range int16 cast, so the program really returns 32767 for input 6.  The
round-trip error 32761 spans nearly the whole positive range, beyond any
mu-law quantization step (a correct mu-law codec's largest step is under
8192, and near this quiet code about 8).  This contradicts the decoder's own
comment, which claims standard mu-law conversion with mu = 255, so the
round-trip property of the specification is the evident intent and the
decode formula a slip. -/
theorem C4_mulaw_roundtrip_not_quantization_bounded :
    mulaw_to_pcm (pcm_to_mulaw [(6 : ℤ)]) = [32767]
    ∧ (32000 : ℤ) < |32767 - 6| := by
  constructor
  · unfold pcm_to_mulaw mulaw_to_pcm
    rw [List.map_singleton, pcm_to_mulaw_six, List.map_singleton, mulaw_to_pcm_129]
  · decide

/-! ### Theorems: silence classifier (C5) -/

/-- C5 counterexample: the claim asserts that for every configured silence
threshold at or below 0 dB a full-scale sine block is classified as speech.
At threshold exactly 0 dB (which satisfies `threshold ≤ 0`) the code
classifies the full-scale sine block as silence: the block's RMS is 23169 of
32767 full scale, and `20*log10(23169/32767)` is about -3.01 dB, strictly
below 0, so `_is_silent` returns True. -/
theorem C5_full_scale_sine_silent_at_zero_db :
    (0 : ℝ) ≤ 0 ∧ is_silent 0 fullScaleSineBlock := by
  refine ⟨le_refl 0, ?_⟩
  unfold is_silent
  rw [pydub_rms_sine, if_neg (by norm_num)]
  have hnum : Real.log (((23169 : ℕ) : ℝ) / 32767) < 0 := by
    apply Real.log_neg
    · norm_num
    · norm_num
  have hden : 0 < Real.log 10 := Real.log_pos (by norm_num)
  have h20 : 20 * Real.log (((23169 : ℕ) : ℝ) / 32767) < 0 := by nlinarith
  exact div_neg_of_neg_of_pos h20 hden

set_option maxRecDepth 8000 in
theorem sine_db_lower_bound :
    -(31 / 10 : ℝ) ≤ 20 * Real.log (((23169 : ℕ) : ℝ) / 32767) / Real.log 10 := by
  have hlog10 : 0 < Real.log 10 := Real.log_pos (by norm_num)
  rw [le_div_iff₀ hlog10]
  have hnat : (32767 : ℕ) ^ 200 ≤ 23169 ^ 200 * 10 ^ 31 := by decide
  have hreal : (32767 : ℝ) ^ 200 ≤ 23169 ^ 200 * 10 ^ 31 := by exact_mod_cast hnat
  have hineq : (((10 : ℝ) ^ (31 : ℕ))⁻¹) ≤ ((23169 : ℝ) / 32767) ^ (200 : ℕ) := by
    rw [div_pow, le_div_iff₀ (show (0 : ℝ) < 32767 ^ 200 by positivity), inv_mul_eq_div,
      div_le_iff₀ (show (0 : ℝ) < 10 ^ 31 by positivity)]
    exact hreal
  have key := Real.log_le_log (by positivity) hineq
  rw [Real.log_inv, Real.log_pow, Real.log_pow] at key
  have hcast : (((23169 : ℕ) : ℝ) / 32767) = ((23169 : ℝ) / 32767) := by norm_num
  rw [hcast]
  linarith [key]

/-- C5 (amended): a sample block whose RMS is exactly zero — including the
empty block — is always classified as silence; and a full-scale sine block is
classified as speech for every configured silence threshold at or below
-3.1 dB (rather than at or below 0 dB as claimed: the RMS loudness of a
full-scale sine is about -3.01 dB, so thresholds in (-3.01, 0] classify it as
silence). -/
theorem C5_amended_silence_classification :
    (∀ (t : ℝ) (samples : List ℤ), pydub_rms samples = 0 → is_silent t samples)
    ∧ (∀ t : ℝ, t ≤ -(31 / 10) → ¬ is_silent t fullScaleSineBlock) := by
  constructor
  · intro t samples h
    unfold is_silent
    rw [if_pos h]
    trivial
  · intro t ht
    unfold is_silent
    rw [pydub_rms_sine, if_neg (by norm_num)]
    push_neg
    exact le_trans ht sine_db_lower_bound

/-- C5 amended witness: the empty block (zero RMS) is silence at threshold
-20 dB, and the full-scale sine block is speech at threshold -4 dB. -/
theorem C5_amended_silence_classification_witness :
    is_silent (-20) [] ∧ ¬ is_silent (-4) fullScaleSineBlock := by
  constructor
  · exact C5_amended_silence_classification.1 (-20) [] (by decide)
  · exact C5_amended_silence_classification.2 (-4) (by norm_num)

/-! ### Theorems: voice-activity segmenter (C6, C7, C10) -/

/-- C6: for the synthetic sequence of speech-classified chunks spanning
2000 ms followed by silence-classified chunks spanning 1500 ms, at the
1500 ms configured silence threshold, the segmenter emits exactly one
completed utterance (on the last silence chunk), the bytes handed to
transcription are exactly the raw wire-format bytes of the speech-phase
chunks in arrival order ([1] ++ [2] ++ [3] ++ [4] ++ [5]; silence chunks are
never buffered), and afterwards the audio buffer is empty and the last-speech
timestamp absent. -/
theorem C6_single_utterance_exactly_speech_bytes
    (transcribe : List ℕ → Except Unit (Option String))
    (r : Option String) (h : transcribe [1, 2, 3, 4, 5] = .ok r) :
    run_chunks classifyC6 transcribe 1500 ⟨[], none⟩ chunksC6 =
      (⟨[], none⟩,
        [(none, none), (none, none), (none, none), (none, none), (none, none),
         (none, none), (none, none), (r, none)]) := by
  norm_num [run_chunks, chunksC6, process_audio_chunk, classifyC6, h]

/-- C6 witness: the scenario evaluated with a concrete transcriber. -/
theorem C6_single_utterance_exactly_speech_bytes_witness :
    run_chunks classifyC6 (fun _ => .ok (some "hello")) 1500 ⟨[], none⟩ chunksC6 =
      (⟨[], none⟩,
        [(none, none), (none, none), (none, none), (none, none), (none, none),
         (none, none), (none, none), (some "hello", none)]) :=
  C6_single_utterance_exactly_speech_bytes (fun _ => .ok (some "hello")) (some "hello") rfl

/-- C7 counterexample: the claim asserts that on a chunk whose mu-law decode
fails, the raw chunk is appended to the audio buffer before the failure is
surfaced.  In src/stt.py the decode (`self._mulaw_to_pcm(audio_data)`) runs
before any buffer access, and the buffer is only extended in the speech
branch after a successful decode; here a session whose buffer holds [5]
processes the chunk [7] with a failing decode, the call raises
`AudioProcessingError`, and the buffer still holds [5], not [5, 7]. -/
theorem C7_decode_failure_chunk_not_buffered :
    process_audio_chunk (fun _ => .error ()) (fun _ => .ok none) 1500 2 ⟨[5], some 1⟩ [7]
        = ⟨⟨[5], some 1⟩, none, some ()⟩
      ∧ (process_audio_chunk (fun _ => .error ()) (fun _ => .ok none) 1500 2
          ⟨[5], some 1⟩ [7]).st.audioBuffer ≠ [5, 7] := by
  refine ⟨rfl, ?_⟩
  intro hcontra
  simp [process_audio_chunk] at hcontra

/-- C7 (amended): on every chunk whose mu-law decode fails, the segmenter
raises a recoverable per-chunk error (`AudioProcessingError`) with the
session's audio buffer and last-speech timestamp left unchanged — the failing
chunk is NOT appended to the buffer — and the media handler catches the error
(src/handlers.py lines 112-115), leaving the session state untouched and the
loop running, so later whole-buffer transcription may still succeed on the
bytes buffered so far. -/
theorem C7_amended_decode_failure_recoverable
    (classify : List ℕ → Except Unit Bool)
    (transcribe : List ℕ → Except Unit (Option String))
    (thr now : ℚ) (st : StreamSegState) (chunk : List ℕ)
    (complete : List ChatMsg → Except Unit (Option String)) (cst : CallSt)
    (hfail : classify chunk = .error ())
    (hidle : cst.ttsTaskRunning = false) (hstt : cst.stt = st) :
    process_audio_chunk classify transcribe thr now st chunk = ⟨st, none, some ()⟩
    ∧ handle_media (process_audio_chunk classify transcribe thr now) complete cst
        (some chunk) = ⟨cst, [], none, some chunk, none⟩ := by
  subst hstt
  obtain ⟨sid, tts, mid, pm, sttf, hist⟩ := cst
  simp only at hidle
  subst hidle
  have hpac : process_audio_chunk classify transcribe thr now sttf chunk
      = ⟨sttf, none, some ()⟩ := by
    unfold process_audio_chunk
    rw [hfail]
  refine ⟨hpac, ?_⟩
  unfold handle_media handle_media_body
  simp [hpac]

/-- C7 amended witness: concrete failing decode on the idle session. -/
theorem C7_amended_decode_failure_recoverable_witness :
    process_audio_chunk (fun _ => .error ()) (fun _ => .ok none) 1500 2
        ⟨[3], some 0⟩ [7] = ⟨⟨[3], some 0⟩, none, some ()⟩
    ∧ handle_media (process_audio_chunk (fun _ => .error ()) (fun _ => .ok none) 1500 2)
        (fun _ => .ok (some "ok")) idleSt (some [7])
        = ⟨idleSt, [], none, some [7], none⟩ :=
  C7_amended_decode_failure_recoverable (fun _ => .error ()) (fun _ => .ok none)
    1500 2 ⟨[3], some 0⟩ [7] (fun _ => .ok (some "ok")) idleSt rfl rfl rfl

/-- C10: when transcription of a completed utterance fails, the segmenter
raises (the `STTError` is wrapped into `AudioProcessingError` by the `except`
clause of `process_audio_chunk`) with the audio buffer and last-speech
timestamp left unchanged — the reset happens only after a successful
transcription; the media handler catches the error without tearing down the
session (its state is returned unchanged and nothing escapes to the
dispatcher loop); and a later silence-classified chunk past the timeout
retries transcription on exactly the same buffered audio. -/
theorem C10_transcription_failure_preserves_buffer
    (classify : List ℕ → Except Unit Bool)
    (transcribe transcribe2 : List ℕ → Except Unit (Option String))
    (thr now now2 : ℚ) (st : StreamSegState) (chunk chunk2 : List ℕ) (t0 : ℚ)
    (res : Option String)
    (complete : List ChatMsg → Except Unit (Option String)) (cst : CallSt)
    (hsilent : classify chunk = .ok true) (hlast : st.lastSpeechTime = some t0)
    (htimeout : thr / 1000 ≤ now - t0) (hbuf : st.audioBuffer.length > 0)
    (hfail : transcribe st.audioBuffer = .error ())
    (hsilent2 : classify chunk2 = .ok true) (htimeout2 : thr / 1000 ≤ now2 - t0)
    (hretry : transcribe2 st.audioBuffer = .ok res)
    (hidle : cst.ttsTaskRunning = false) (hstt : cst.stt = st) :
    process_audio_chunk classify transcribe thr now st chunk = ⟨st, none, some ()⟩
    ∧ handle_media (process_audio_chunk classify transcribe thr now) complete cst
        (some chunk) = ⟨cst, [], none, some chunk, none⟩
    ∧ process_audio_chunk classify transcribe2 thr now2 st chunk2
        = ⟨⟨[], none⟩, res, none⟩ := by
  subst hstt
  obtain ⟨sid, tts, mid, pm, sttf, hist⟩ := cst
  simp only at hidle hlast hbuf hfail hretry
  subst hidle
  have hpac : process_audio_chunk classify transcribe thr now sttf chunk
      = ⟨sttf, none, some ()⟩ := by
    unfold process_audio_chunk
    simp [hsilent, hlast, htimeout, hbuf, hfail]
  refine ⟨hpac, ?_, ?_⟩
  · unfold handle_media handle_media_body
    simp [hpac]
  · unfold process_audio_chunk
    simp [hsilent2, hlast, htimeout2, hbuf, hretry]

/-- C10 witness: concrete failing-then-retried transcription on the idle
session (buffer [3], last speech at 0 s, silence chunks at 2 s and 3 s). -/
theorem C10_transcription_failure_preserves_buffer_witness :
    process_audio_chunk (fun _ => .ok true) (fun _ => .error ()) 1500 2
        ⟨[3], some 0⟩ [9] = ⟨⟨[3], some 0⟩, none, some ()⟩
    ∧ handle_media (process_audio_chunk (fun _ => .ok true) (fun _ => .error ()) 1500 2)
        (fun _ => .ok (some "ok")) idleSt (some [9])
        = ⟨idleSt, [], none, some [9], none⟩
    ∧ process_audio_chunk (fun _ => .ok true) (fun _ => .ok (some "I cannot pay")) 1500 3
        ⟨[3], some 0⟩ [9] = ⟨⟨[], none⟩, some "I cannot pay", none⟩ :=
  C10_transcription_failure_preserves_buffer (fun _ => .ok true) (fun _ => .error ())
    (fun _ => .ok (some "I cannot pay")) 1500 2 3 ⟨[3], some 0⟩ [9] [9] 0
    (some "I cannot pay") (fun _ => .ok (some "ok")) idleSt rfl rfl (by norm_num)
    (by decide) rfl rfl (by norm_num) rfl rfl rfl

/-! ### Theorems: collections agent history (C8, C9) -/

theorem generate_response_ok_shape
    {complete : List ChatMsg → Except Unit (Option String)}
    {h h' : List ChatMsg} {u r : String}
    (heq : generate_response complete h u = .ok (h', r)) :
    h' = update_history h u r := by
  unfold generate_response at heq
  split at heq
  · exact absurd heq (by simp)
  · exact absurd heq (by simp)
  · split at heq
    · exact absurd heq (by simp)
    · simp only [Except.ok.injEq, Prod.mk.injEq] at heq
      obtain ⟨h1, h2⟩ := heq
      subst h1
      subst h2
      rfl

theorem pairShaped_append {t : List ChatMsg} (h : PairShaped t) (u a : String) :
    PairShaped (t ++ [⟨.user, u⟩, ⟨.assistant, a⟩]) := by
  induction h with
  | nil => exact PairShaped.pair u a PairShaped.nil
  | pair u' a' _ ih => exact PairShaped.pair u' a' ih

theorem pairShaped_drop_two {t : List ChatMsg} (h : PairShaped t) :
    PairShaped (t.drop 2) := by
  cases h with
  | nil => exact PairShaped.nil
  | pair u a ht => exact ht

theorem pairShaped_head_user {t : List ChatMsg} (h : PairShaped t) :
    ∀ m ms, t = m :: ms → m.role = Role.user := by
  intro m ms heq
  cases h with
  | nil => simp at heq
  | pair u a ht =>
    rw [List.cons.injEq] at heq
    obtain ⟨h1, _⟩ := heq
    rw [← h1]

theorem update_history_invariant {h : List ChatMsg} (u r : String)
    (hlen : h.length ≤ max_history_messages) (heven : Even h.length)
    (hps : PairShaped h) :
    (update_history h u r).length ≤ max_history_messages
    ∧ Even (update_history h u r).length
    ∧ PairShaped (update_history h u r)
    ∧ (update_history h u r = h ++ [⟨.user, u⟩, ⟨.assistant, r⟩]
       ∨ update_history h u r
          = ((h ++ [⟨.user, u⟩, ⟨.assistant, r⟩] : List ChatMsg)).drop 2) := by
  have hlen1 : (h ++ [⟨.user, u⟩, ⟨.assistant, r⟩] : List ChatMsg).length
      = h.length + 2 := by simp
  unfold update_history
  simp only [hlen1]
  unfold max_history_messages at hlen ⊢
  by_cases hc : 10 < h.length + 2
  · have h10 : h.length = 10 := by
      obtain ⟨k, hk⟩ := heven
      omega
    rw [if_pos hc, h10]
    have hdrop2 : (10 : ℕ) + 2 - 10 = 2 := by norm_num
    rw [hdrop2]
    refine ⟨?_, ?_, ?_, Or.inr rfl⟩
    · rw [List.length_drop, hlen1, h10]
    · rw [List.length_drop, hlen1, h10]
      decide
    · exact pairShaped_drop_two (pairShaped_append hps u r)
  · rw [if_neg hc]
    refine ⟨?_, ?_, pairShaped_append hps u r, Or.inl rfl⟩
    · rw [hlen1]
      omega
    · rw [hlen1]
      obtain ⟨k, hk⟩ := heven
      exact ⟨k + 1, by omega⟩

/-- C9: every history reachable by the agent (starting empty, updated only by
successful `generate_response` turns) never exceeds the configured cap of 10
messages, always has even length, is a sequence of complete (user, assistant)
pairs starting with a user message; and every successful update either
appends the new pair or appends it and drops exactly the complete oldest
(user, assistant) pair — never a dangling half-pair. -/
theorem C9_history_cap_invariants :
    (∀ h : List ChatMsg, HistReachable h →
      h.length ≤ max_history_messages ∧ Even h.length ∧ PairShaped h
      ∧ (∀ m ms, h = m :: ms → m.role = Role.user))
    ∧ (∀ (complete : List ChatMsg → Except Unit (Option String))
        (h : List ChatMsg) (u : String) (h' : List ChatMsg) (r : String),
        HistReachable h → generate_response complete h u = .ok (h', r) →
        h' = h ++ [⟨Role.user, u⟩, ⟨Role.assistant, r⟩]
        ∨ h' = ((h ++ [⟨Role.user, u⟩, ⟨Role.assistant, r⟩] : List ChatMsg)).drop 2) := by
  have main : ∀ h : List ChatMsg, HistReachable h →
      h.length ≤ max_history_messages ∧ Even h.length ∧ PairShaped h := by
    intro h hr
    induction hr with
    | init => exact ⟨by simp [max_history_messages], by simp, PairShaped.nil⟩
    | turn _ heq ih =>
      rename_i complete0 h0 h0' u0 r0 hrec0
      obtain ⟨l, e, p⟩ := ih
      rw [generate_response_ok_shape heq]
      have hinv := update_history_invariant u0 r0 l e p
      exact ⟨hinv.1, hinv.2.1, hinv.2.2.1⟩
  constructor
  · intro h hr
    obtain ⟨l, e, p⟩ := main h hr
    exact ⟨l, e, p, pairShaped_head_user p⟩
  · intro complete h u h' r hr heq
    obtain ⟨l, e, p⟩ := main h hr
    rw [generate_response_ok_shape heq]
    exact (update_history_invariant u r l e p).2.2.2

/-- C9 witness: the invariants instantiated at the empty reachable history,
and the update shape instantiated at a concrete successful first turn. -/
theorem C9_history_cap_invariants_witness :
    (([] : List ChatMsg).length ≤ max_history_messages
      ∧ Even ([] : List ChatMsg).length ∧ PairShaped ([] : List ChatMsg)
      ∧ (∀ m ms, ([] : List ChatMsg) = m :: ms → m.role = Role.user))
    ∧ (update_history [] "hi" ("Hello".trim)
        = ([] : List ChatMsg) ++ [⟨Role.user, "hi"⟩, ⟨Role.assistant, "Hello".trim⟩]
      ∨ update_history [] "hi" ("Hello".trim)
        = ((([] : List ChatMsg)
            ++ [⟨Role.user, "hi"⟩, ⟨Role.assistant, "Hello".trim⟩] : List ChatMsg)).drop 2) := by
  constructor
  · exact C9_history_cap_invariants.1 [] HistReachable.init
  · refine C9_history_cap_invariants.2 (fun _ => .ok (some "Hello")) [] "hi"
      (update_history [] "hi" ("Hello".trim)) ("Hello".trim) HistReachable.init ?_
    show (if ("Hello" : String) = "" then (Except.error () : Except Unit (List ChatMsg × String))
        else .ok (update_history [] "hi" "Hello".trim, "Hello".trim))
      = .ok (update_history [] "hi" "Hello".trim, "Hello".trim)
    rw [if_neg (by decide)]

/-- C8 counterexample: the claim asserts that on an LLM generation failure the
conversation history is updated with the (user, fallback-assistant) pair
exactly as for a normally generated pair.  In the code,
`CollectionsAgent.generate_response` raises `LLMError` before its history
appends run, and the `except LLMError` branch of `handle_media` (src/handlers.py
lines 100-110) only spawns the fallback TTS task: here a turn whose LLM call
fails streams the fallback text under mark id mark_1, yet the history stays
empty, whereas an update identical to the normal path would have produced the
nonempty `update_history [] "I cannot pay" LLM_FALLBACK_MESSAGE`. -/
theorem C8_fallback_pair_not_recorded :
    (handle_media
        (process_audio_chunk (fun _ => .ok true) (fun _ => .ok (some "I cannot pay")) 1500 2)
        (fun _ => .error ()) idleSt (some [7])).spawned
      = some (LLM_FALLBACK_MESSAGE, "mark_1")
    ∧ (handle_media
        (process_audio_chunk (fun _ => .ok true) (fun _ => .ok (some "I cannot pay")) 1500 2)
        (fun _ => .error ()) idleSt (some [7])).state.history = []
    ∧ update_history [] "I cannot pay" LLM_FALLBACK_MESSAGE ≠ ([] : List ChatMsg) := by
  have heval : handle_media
      (process_audio_chunk (fun _ => .ok true) (fun _ => .ok (some "I cannot pay")) 1500 2)
      (fun _ => .error ()) idleSt (some [7])
      = ⟨⟨"MZ0001", true, 1, ∅, ⟨[], none⟩, []⟩, [],
          some (LLM_FALLBACK_MESSAGE, "mark_1"), some [7], none⟩ := by
    norm_num [handle_media, handle_media_body, process_audio_chunk, generate_response,
      idleSt]
    decide
  refine ⟨?_, ?_, ?_⟩
  · rw [heval]
  · rw [heval]
  · intro hcontra
    have : (update_history [] "I cannot pay" LLM_FALLBACK_MESSAGE).length = 0 := by
      rw [hcontra]
      rfl
    rw [update_history] at this
    simp [max_history_messages] at this

/-- C8 (amended): when the LLM reply call for a turn fails, the fixed fallback
utterance is handed to the Output Streamer under a fresh mark id, so the
caller still hears a response; but the conversation history is left entirely
unchanged — neither the user message nor the fallback is recorded, unlike the
normal path, which appends the (user, assistant) pair. -/
theorem C8_amended_fallback_streams_history_unchanged
    (sttP : StreamSegState → List ℕ → ChunkResult)
    (complete : List ChatMsg → Except Unit (Option String))
    (st : CallSt) (audio : List ℕ) (r : StreamSegState) (tstr : String)
    (hidle : st.ttsTaskRunning = false)
    (hstt : sttP st.stt audio = ⟨r, some tstr, none⟩)
    (htr : tstr ≠ "")
    (hfail : ∀ msgs, complete msgs = .error ()) :
    handle_media sttP complete st (some audio)
      = ⟨{ st with stt := r, mark_id := st.mark_id + 1, ttsTaskRunning := true }, [],
          some (LLM_FALLBACK_MESSAGE, "mark_" ++ toString (st.mark_id + 1)),
          some audio, none⟩ := by
  obtain ⟨sid, tts, mid, pm, sttf, hist⟩ := st
  simp only at hidle hstt
  subst hidle
  unfold handle_media handle_media_body generate_response
  simp [hstt, htr, hfail]

/-- C8 amended witness: the fallback turn evaluated on the concrete idle
session. -/
theorem C8_amended_fallback_streams_history_unchanged_witness :
    handle_media
        (process_audio_chunk (fun _ => .ok true) (fun _ => .ok (some "I cannot pay")) 1500 2)
        (fun _ => .error ()) idleSt (some [7])
      = ⟨{ idleSt with stt := ⟨[], none⟩, mark_id := idleSt.mark_id + 1, ttsTaskRunning := true },
          [], some (LLM_FALLBACK_MESSAGE, "mark_" ++ toString (idleSt.mark_id + 1)),
          some [7], none⟩ :=
  C8_amended_fallback_streams_history_unchanged
    (process_audio_chunk (fun _ => .ok true) (fun _ => .ok (some "I cannot pay")) 1500 2)
    (fun _ => .error ()) idleSt [7] ⟨[], none⟩ "I cannot pay" rfl
    (by norm_num [process_audio_chunk, idleSt]) (by decide) (fun _ => rfl)

/-! ### Theorems: mark accounting (C2) and barge-in (C1, C3) -/

/-- C2: the pending-marks set grows only when the response-streaming path
adds the mark id it will emit (and the streamer's mark frame is sent exactly
when the run completes normally); it shrinks only when an inbound mark event
carries a matching pending identifier; an unmatched (or empty) inbound name
leaves the set unchanged and raises no error; and a turn whose streaming
completes normally starting from the empty set leaves the set holding
exactly the emitted identifier, unmatched acknowledgements keep it there, and
the matching acknowledgement empties it. -/
theorem C2_pending_mark_accounting :
    (∀ (pending : Finset String) (mf tf : Option String),
      (∀ n, mark_name_of mf tf = some n → n = "" ∨ n ∉ pending) →
      handle_mark pending mf tf = pending)
    ∧ (∀ (pending : Finset String) (mf tf : Option String) (n : String),
      mark_name_of mf tf = some n → n ≠ "" → n ∈ pending →
      handle_mark pending mf tf = pending.erase n)
    ∧ (∀ (pending : Finset String) (mf tf : Option String),
      handle_mark pending mf tf ⊆ pending)
    ∧ (∀ (chunk_size : ℕ) (sid mid : String) (pending : Finset String)
        (tts : TTSStreamResult),
      (stream_tts_response chunk_size sid mid pending tts).1 = insert mid pending)
    ∧ (∀ (chunk_size : ℕ) (sid mid : String) (tts : TTSStreamResult),
      tts.completed = true →
      ∃ fs, stream_to_twilio_frames chunk_size sid mid tts
        = fs ++ [Frame.mark sid mid])
    ∧ (∀ (chunk_size : ℕ) (sid mid : String) (tts : TTSStreamResult),
      mid ≠ "" → tts.completed = true →
      (stream_tts_response chunk_size sid mid ∅ tts).1 = {mid}
      ∧ (∀ n, n ≠ mid → handle_mark {mid} (some n) none = {mid})
      ∧ handle_mark {mid} (some mid) none = (∅ : Finset String)) := by
  refine ⟨?_, ?_, ?_, ?_, ?_, ?_⟩
  · intro pending mf tf hun
    cases hm : mark_name_of mf tf with
    | none => simp only [handle_mark, hm]
    | some n =>
      rcases hun n hm with h | h
      · simp only [handle_mark, hm]
        rw [if_neg (by simp [h])]
      · simp only [handle_mark, hm]
        rw [if_neg (by simp [h])]
  · intro pending mf tf n hm hne hin
    simp only [handle_mark, hm]
    rw [if_pos ⟨hne, hin⟩]
  · intro pending mf tf
    cases hm : mark_name_of mf tf with
    | none =>
      simp only [handle_mark, hm]
      exact Finset.Subset.refl _
    | some n =>
      by_cases hc : n ≠ "" ∧ n ∈ pending
      · simp only [handle_mark, hm, if_pos hc]
        exact Finset.erase_subset _ _
      · simp only [handle_mark, hm, if_neg hc]
        exact Finset.Subset.refl _
  · intro chunk_size sid mid pending tts
    rfl
  · intro chunk_size sid mid tts hc
    simp only [stream_to_twilio_frames, hc, if_pos]
    exact ⟨_, rfl⟩
  · intro chunk_size sid mid tts hne hc
    refine ⟨by simp [stream_tts_response], ?_, ?_⟩
    · intro n hn
      by_cases h0 : n = ""
      · simp [handle_mark, mark_name_of, h0]
      · simp [handle_mark, mark_name_of, h0, hn]
    · simp [handle_mark, mark_name_of, hne]

/-- C2 witness: the mark ledger evaluated on concrete data — an unmatched
acknowledgement is a no-op, the matching acknowledgement empties the set, a
normally completed turn from the empty set pends exactly its emitted id, and
its frame list ends with the mark frame. -/
theorem C2_pending_mark_accounting_witness :
    handle_mark {"mark_1"} (some "mark_9") none = {"mark_1"}
    ∧ handle_mark {"mark_1"} (some "mark_1") none = (∅ : Finset String)
    ∧ (stream_tts_response 320 "MZ0001" "mark_1" ∅ ⟨[[1, 2, 3]], true⟩).1
        = insert "mark_1" ∅
    ∧ (∃ fs, stream_to_twilio_frames 320 "MZ0001" "mark_1" ⟨[[1, 2, 3]], true⟩
        = fs ++ [Frame.mark "MZ0001" "mark_1"]) := by
  refine ⟨?_, ?_, ?_, ?_⟩
  · refine C2_pending_mark_accounting.1 {"mark_1"} (some "mark_9") none ?_
    intro n hn
    simp [mark_name_of] at hn
    subst hn
    decide
  · exact C2_pending_mark_accounting.2.1 {"mark_1"} (some "mark_1") none "mark_1"
      (by decide) (by decide) (by decide)
  · exact C2_pending_mark_accounting.2.2.2.1 320 "MZ0001" "mark_1" ∅ ⟨[[1, 2, 3]], true⟩
  · exact C2_pending_mark_accounting.2.2.2.2.1 320 "MZ0001" "mark_1" ⟨[[1, 2, 3]], true⟩ rfl

/-- C1: the claim asserts that a media event processed while an active
response task is running sends exactly one clear frame, cancels and awaits
the task, emits no trailing mark, and still feeds the chunk to the segmenter.
The code cannot do any of this: src/handlers.py does not import `EVENT_KEY`
(its core.constants import at lines 9-18 lists only the names in
`handlers_constant_imports`), so building the clear frame at line 51 raises
`NameError` outside the `try` block — no clear frame is sent, the task is not
cancelled, the chunk never reaches the segmenter, and the exception escapes
to the dispatcher loop (whose generic handler then tears the session down).
The spec (and the working legacy copy of the same handler in src/app.py,
which uses string literals) shows the claimed behavior is the intent and the
missing import a slip, so this is recorded as a code bug; this theorem
evaluates the code at the failing input. -/
theorem C1_barge_in_raises_name_error
    (sttP : StreamSegState → List ℕ → ChunkResult)
    (complete : List ChatMsg → Except Unit (Option String))
    (st : CallSt) (audio_payload : Option (List ℕ))
    (hrun : st.ttsTaskRunning = true) :
    handle_media sttP complete st audio_payload
      = ⟨st, [], none, none, some PyErr.nameError⟩ := by
  unfold handle_media
  rw [hrun, if_pos rfl, if_neg (by decide)]

/-- C1 witness: a concrete barge-in media event evaluated on the concrete
session with a running TTS task. -/
theorem C1_barge_in_raises_name_error_witness :
    handle_media (fun s _ => ⟨s, none, none⟩) (fun _ => .ok none) bargeSt (some [7])
      = ⟨bargeSt, [], none, none, some PyErr.nameError⟩ :=
  C1_barge_in_raises_name_error (fun s _ => ⟨s, none, none⟩) (fun _ => .ok none)
    bargeSt (some [7]) rfl

/-- C3 counterexample: the claim asserts that handling a media event during
barge-in clears the session's pending mark identifiers, leaving the set
empty.  On the concrete barge-in session whose pending set holds mark_1, the
set after `handle_media` is still nonempty (the handler never touches
`pending_marks`; with the current code its barge-in branch raises `NameError`
before reaching anything). -/
theorem C3_pending_marks_not_cleared_on_barge_in :
    (handle_media (fun s _ => ⟨s, none, none⟩) (fun _ => .ok none) bargeSt
        (some [7])).state.pending_marks ≠ (∅ : Finset String) := by
  decide

/-- C3 (amended): handling a media event during barge-in leaves the session's
pending mark identifiers exactly as they were — `handle_media` never modifies
`pending_marks`, so immediately after the barge-in is handled the
pending-marks set equals its value before the event (it is not cleared). -/
theorem C3_amended_barge_in_preserves_pending_marks
    (sttP : StreamSegState → List ℕ → ChunkResult)
    (complete : List ChatMsg → Except Unit (Option String))
    (st : CallSt) (audio_payload : Option (List ℕ))
    (hrun : st.ttsTaskRunning = true) :
    (handle_media sttP complete st audio_payload).state.pending_marks
      = st.pending_marks := by
  unfold handle_media
  rw [hrun, if_pos rfl, if_neg (by decide)]

/-- C3 amended witness: the pending set of the concrete barge-in session is
unchanged by the media event. -/
theorem C3_amended_barge_in_preserves_pending_marks_witness :
    (handle_media (fun s _ => ⟨s, none, none⟩) (fun _ => .ok none) bargeSt
        (some [7])).state.pending_marks = bargeSt.pending_marks :=
  C3_amended_barge_in_preserves_pending_marks (fun s _ => ⟨s, none, none⟩)
    (fun _ => .ok none) bargeSt (some [7]) rfl
